import Mathlib

/-!
Verification of the visage video pipeline (`src/video.c`, `src/visage_video.h`).

The development shallowly embeds the frame queue, the decode-loop driver
`visage_process_video`, the consumer operation `visage_pop_video`, and the
context lifecycle functions `visage_init_video` / `visage_free_video`.

Modelling conventions:
* The singly linked chain of `VisageVideoFrames` nodes (head pointer
  `video->frames`, forward `next` pointers) is represented by a Lean `List`
  of node records; the head of the list is the head of the chain.
* `AVFrame` is modelled by the identifier of the pixel buffer its `data`
  pointers reference (FFmpeg reference-counts that buffer) together with its
  `pts` field.  `av_frame_clone` builds a fresh `AVFrame` that references the
  same underlying buffer and copies the properties — it does not copy pixels.
* Pixel memory is a heap mapping buffer ids to abstract contents; `sws_scale`
  writes into the buffer referenced by its destination frame.
* libavcodec is an external collaborator; the decoder is modelled as a box
  that buffers decoded frames and releases one on `avcodec_receive_frame`
  whenever more than `delay` frames are buffered (internal buffering and
  reordering are explicitly allowed by the interface).
* Machine integers: `frame->pts` is `int64_t` and node `pts` is `uint64_t`;
  all claims concern small non-negative values, far from any overflow, so
  both are modelled as `Int`.
-/

namespace Visage

/-- FFmpeg `AV_NOPTS_VALUE`, the `pts` of a freshly allocated `AVFrame`. -/
def AV_NOPTS_VALUE : Int := -(2 ^ 63)

/-- Model of an `AVFrame`: which reference-counted pixel buffer its `data`
pointers reference, and its `pts` property. -/
structure AVFrame where
  bufId : Nat
  pts : Int
deriving DecidableEq, Repr

/-- `av_frame_clone`: allocates a new `AVFrame`, copies the properties and
creates new references to the same underlying pixel buffers (no pixel copy). -/
def av_frame_clone (f : AVFrame) : AVFrame :=
  { bufId := f.bufId, pts := f.pts }

/-- A node of the frame queue (`struct VisageVideoFrames`): the frame and the
presentation timestamp in milliseconds.  The `next` pointer is represented by
the node's position in a `List`. -/
structure VisageVideoFrames where
  frame : AVFrame
  pts : Int
deriving DecidableEq, Repr

/-- The tail-append of `visage_process_video` (video.c lines 176–182): if the
queue is empty the new node becomes the head, otherwise walk `next` pointers
to the last node and link the new node there. -/
def visage_append_frames : List VisageVideoFrames → VisageVideoFrames →
    List VisageVideoFrames
  | [], n => [n]
  | c :: cs, n => c :: visage_append_frames cs n

/-- `visage_pop_video` (video.c lines 82–102), acting on the queue chain:
empty queue returns `NULL` and leaves the chain untouched; otherwise the head
frame is cloned, the head node is freed, and the head pointer advances. -/
def visage_pop_video (frames : List VisageVideoFrames) :
    Option AVFrame × List VisageVideoFrames :=
  match frames with
  | [] => (none, [])
  | top :: rest => (some (av_frame_clone top.frame), rest)

/-- `av_q2d(q) = num / den`, here in exact rational arithmetic (the C computes
in `double`; every value appearing in the claims is exact on both paths). -/
def av_q2d (num den : Int) : ℚ := (num : ℚ) / (den : ℚ)

/-- C conversion of a nonnegative floating value to an integer type truncates
toward zero. -/
def cTrunc (x : ℚ) : Int := x.num.tdiv (x.den : Int)

/-- The node timestamp computed at video.c lines 171–172:
`(frame->pts) * av_q2d(stream->time_base) * 1000`, truncated on assignment to
the `uint64_t` field. -/
def computePts (framePts : Int) (tbNum tbDen : Int) : Int :=
  cTrunc ((framePts : ℚ) * av_q2d tbNum tbDen * 1000)

/-! ### The external decoder (libavcodec collaborator)

The decoder is out of scope for the repository; per the interface contract a
submitted unit may yield zero, one, or several output frames, and the decoder
may buffer frames internally.  It is modelled as a FIFO box of decoded frames
(identified by their decoder-native timestamps) that releases a frame on
`avcodec_receive_frame` only while more than `delay` frames are inside, and
that records whether a flush (`avcodec_send_packet(ctx, NULL)`) was ever
submitted. -/

/-- Model of the decoder state held in `AVCodecContext`. -/
structure AVCodecContext where
  delay : Nat
  buffered : List Int
  flushed : Bool
deriving DecidableEq, Repr

/-- `avcodec_send_packet` with a real packet: the frames the unit decodes
into enter the decoder's internal buffer. -/
def avcodec_send_packet (ctx : AVCodecContext) (payload : List Int) :
    AVCodecContext :=
  { ctx with buffered := ctx.buffered ++ payload }

/-- `avcodec_send_packet(ctx, NULL)`: the end-of-stream flush signal.
`visage_process_video` never calls this. -/
def avcodec_send_flush (ctx : AVCodecContext) : AVCodecContext :=
  { ctx with flushed := true, delay := 0 }

/-- `avcodec_receive_frame`: succeeds exactly while the decoder holds more
than `delay` frames (otherwise `EAGAIN`, unless flushed), handing out the
oldest buffered frame. -/
def avcodec_receive_frame (ctx : AVCodecContext) :
    Option (Int × AVCodecContext) :=
  if ctx.delay < ctx.buffered.length then
    match ctx.buffered with
    | [] => none
    | f :: rest => some (f, { ctx with buffered := rest })
  else none

/-- A successful receive hands out the oldest buffered frame and only shrinks
the buffer; the `flushed` flag and the `delay` are untouched. -/
theorem avcodec_receive_frame_some {ctx : AVCodecContext} {f : Int}
    {ctx' : AVCodecContext} (h : avcodec_receive_frame ctx = some (f, ctx')) :
    ctx.buffered = f :: ctx'.buffered ∧ ctx'.flushed = ctx.flushed ∧
      ctx'.delay = ctx.delay := by
  unfold avcodec_receive_frame at h
  split at h
  · cases hb : ctx.buffered with
    | nil => rw [hb] at h; simp at h
    | cons g rest =>
        rw [hb] at h
        simp only [Option.some.injEq, Prod.mk.injEq] at h
        obtain ⟨hf, hc⟩ := h
        subst hf
        subst hc
        simp [hb]
  · simp at h

/-- The inner drain loop of `visage_process_video` (video.c line 159):
`while (avcodec_receive_frame(...) >= 0)`, collecting every frame the decoder
makes available, in order.  Each successful receive removes one frame from
the decoder's buffer and nothing enters the buffer while draining, so the
loop runs at most `ctx.buffered.length` iterations; the recursion is
step-indexed by that bound (`drainLoop_fuel_irrelevant` shows the bound never
cuts the loop short). -/
def drainLoop : Nat → AVCodecContext → List Int × AVCodecContext
  | 0, ctx => ([], ctx)
  | fuel + 1, ctx =>
      match avcodec_receive_frame ctx with
      | none => ([], ctx)
      | some (f, ctx') =>
          let p := drainLoop fuel ctx'
          (f :: p.1, p.2)

/-- The drain loop as `visage_process_video` runs it. -/
def drainFrames (ctx : AVCodecContext) : List Int × AVCodecContext :=
  drainLoop ctx.buffered.length ctx

/-- Adding fuel beyond the buffer length changes nothing: the step-indexed
loop is the `while` loop. -/
theorem drainLoop_succ_of_le (fuel : Nat) :
    ∀ ctx : AVCodecContext, ctx.buffered.length ≤ fuel →
      drainLoop (fuel + 1) ctx = drainLoop fuel ctx := by
  induction fuel with
  | zero =>
      intro ctx hlen
      have hb : ctx.buffered = [] := List.eq_nil_of_length_eq_zero
        (Nat.le_zero.mp hlen)
      have hr : avcodec_receive_frame ctx = none := by
        unfold avcodec_receive_frame
        rw [hb]
        simp
      simp [drainLoop, hr]
  | succ fuel ih =>
      intro ctx hlen
      cases hr : avcodec_receive_frame ctx with
      | none =>
          have e2 : drainLoop (fuel + 1 + 1) ctx = ([], ctx) := by
            conv_lhs => rw [drainLoop]
            rw [hr]
          have e1 : drainLoop (fuel + 1) ctx = ([], ctx) := by
            conv_lhs => rw [drainLoop]
            rw [hr]
          rw [e2, e1]
      | some p =>
          obtain ⟨f, ctx'⟩ := p
          have hs := avcodec_receive_frame_some hr
          have hlen' : ctx'.buffered.length ≤ fuel := by
            have : ctx.buffered.length = ctx'.buffered.length + 1 := by
              rw [hs.1]; simp
            omega
          have e2 : drainLoop (fuel + 1 + 1) ctx =
              (f :: (drainLoop (fuel + 1) ctx').1,
               (drainLoop (fuel + 1) ctx').2) := by
            conv_lhs => rw [drainLoop]
            rw [hr]
          have e1 : drainLoop (fuel + 1) ctx =
              (f :: (drainLoop fuel ctx').1, (drainLoop fuel ctx').2) := by
            conv_lhs => rw [drainLoop]
            rw [hr]
          rw [e2, e1, ih ctx' hlen']

/-- Any fuel at least the buffer length computes `drainFrames`. -/
theorem drainLoop_fuel_irrelevant (ctx : AVCodecContext) :
    ∀ fuel : Nat, ctx.buffered.length ≤ fuel →
      drainLoop fuel ctx = drainFrames ctx := by
  intro fuel
  induction fuel with
  | zero =>
      intro hlen
      unfold drainFrames
      rw [Nat.le_zero.mp hlen]
  | succ fuel ih =>
      intro hlen
      rcases Nat.lt_or_ge ctx.buffered.length (fuel + 1) with hlt | hge
      · have hle : ctx.buffered.length ≤ fuel := Nat.lt_succ_iff.mp hlt
        rw [drainLoop_succ_of_le fuel ctx hle]
        exact ih hle
      · have : ctx.buffered.length = fuel + 1 := Nat.le_antisymm hlen hge
        unfold drainFrames
        rw [this]

/-- Draining never touches the decoder's `flushed` flag. -/
theorem drainLoop_flushed (fuel : Nat) :
    ∀ ctx : AVCodecContext, (drainLoop fuel ctx).2.flushed = ctx.flushed := by
  induction fuel with
  | zero => intro ctx; rfl
  | succ fuel ih =>
      intro ctx
      cases hr : avcodec_receive_frame ctx with
      | none =>
          have e : drainLoop (fuel + 1) ctx = ([], ctx) := by
            conv_lhs => rw [drainLoop]
            rw [hr]
          rw [e]
      | some p =>
          obtain ⟨f, ctx'⟩ := p
          have hs := avcodec_receive_frame_some hr
          have e : drainLoop (fuel + 1) ctx =
              (f :: (drainLoop fuel ctx').1, (drainLoop fuel ctx').2) := by
            conv_lhs => rw [drainLoop]
            rw [hr]
          rw [e]
          exact (ih ctx').trans hs.2.1

/-! ### The decode-loop driver -/

/-- Model of an `AVPacket` as handed out by `av_read_frame`: the stream it
belongs to, and the decoder-native timestamps of the frames the decoder
produces from it once submitted. -/
structure AVPacket where
  stream_index : Int
  payload : List Int
deriving DecidableEq, Repr

/-- The per-frame body of the drain loop (video.c lines 159–183): scale the
decoded frame into `scaled_frame`, clone `scaled_frame` into a fresh queue
node, stamp the node with the computed millisecond timestamp, and append the
node at the tail of the queue.  `scaled_frame` references pixel buffer 0 and
its `pts` property is never set, so the clone stored in the node carries
buffer id 0 and `AV_NOPTS_VALUE`. -/
def enqueueDecodedFrame (tbNum tbDen : Int) (q : List VisageVideoFrames)
    (framePts : Int) : List VisageVideoFrames :=
  visage_append_frames q
    { frame := av_frame_clone { bufId := 0, pts := AV_NOPTS_VALUE },
      pts := computePts framePts tbNum tbDen }

/-- State threaded through the decode loop: the decoder and the frame queue
of the `VisageVideo` context. -/
structure ProcState where
  codec_ctx : AVCodecContext
  frames : List VisageVideoFrames
deriving DecidableEq, Repr

/-- The read loop of `visage_process_video` (video.c lines 146–185) over the
sequence of packets `av_read_frame` yields before reporting end of stream:
skip packets of foreign streams, submit matching packets, drain every frame
the decoder offers and enqueue each.  When the packet list is exhausted the
loop exits and the function returns at once: no flush is submitted and no
final drain happens. -/
def visage_process_video (tbNum tbDen stream_idx : Int) :
    List AVPacket → ProcState → ProcState
  | [], st => st
  | p :: rest, st =>
      if p.stream_index ≠ stream_idx then
        visage_process_video tbNum tbDen stream_idx rest st
      else
        let ctx1 := avcodec_send_packet st.codec_ctx p.payload
        let d := drainFrames ctx1
        visage_process_video tbNum tbDen stream_idx rest
          { codec_ctx := d.2,
            frames := d.1.foldl (enqueueDecodedFrame tbNum tbDen) st.frames }

/-! ### Pixel-buffer effects of the drain-loop body

For the aliasing claims the pixel memory must be explicit: the heap maps
buffer ids to abstract pixel contents, `scaled_frame` owns buffer 0
(allocated once by `av_frame_get_buffer` before the loop), and each
iteration first lets `sws_scale` overwrite buffer 0 with the freshly decoded
picture and then enqueues a clone of `scaled_frame`. -/

/-- Pixel heap: contents of each buffer id. -/
def Heap := List Nat

/-- Pixel data reachable from a frame: the contents of the buffer its `data`
pointers reference. -/
def reachablePixels (h : Heap) (f : AVFrame) : Nat :=
  List.getD h f.bufId 0

/-- `sws_scale` into `dst`: overwrites the pixel buffer referenced by `dst`
with the converted source picture (no new buffer is allocated). -/
def sws_scale (h : Heap) (dst : AVFrame) (srcPixels : Nat) : Heap :=
  List.set h dst.bufId srcPixels

/-- Loop state with pixel memory: heap, the `scaled_frame` local, and the
queue. -/
structure PixLoopState where
  heap : Heap
  scaled_frame : AVFrame
  queue : List VisageVideoFrames

/-- One iteration of the drain-loop body (video.c lines 159–183) with pixel
effects: `sws_scale` writes the decoded picture into `scaled_frame`'s buffer,
then a clone of `scaled_frame` is enqueued with its timestamp. -/
def processOneFrame (tbNum tbDen : Int) (st : PixLoopState)
    (decodedPixels : Nat) (framePts : Int) : PixLoopState :=
  { heap := sws_scale st.heap st.scaled_frame decodedPixels,
    scaled_frame := st.scaled_frame,
    queue := visage_append_frames st.queue
      { frame := av_frame_clone st.scaled_frame,
        pts := computePts framePts tbNum tbDen } }

/-- The state at video.c line 146, just before the read loop: buffer 0 has
been allocated for `scaled_frame` by `av_frame_get_buffer` (contents
arbitrary, here 0), `scaled_frame.pts` is still `AV_NOPTS_VALUE`, and the
queue is empty. -/
def initialPixState : PixLoopState :=
  { heap := [0],
    scaled_frame := { bufId := 0, pts := AV_NOPTS_VALUE },
    queue := [] }

/-! ### Node allocation in the loop body

`visage_alloc_frames` (video.c lines 24–34) can return `NULL`.  The loop body
at lines 165–168 stores `visage_alloc_frames()` into `new_frame` and
immediately writes `new_frame->frame = av_frame_clone(scaled_frame)` with no
`NULL` check, so an allocation failure dereferences a null pointer instead of
reaching any error return. -/

/-- Outcome of one enqueue attempt, with the allocator's answer made
explicit. -/
inductive EnqueueOutcome where
  | ok (q : List VisageVideoFrames)
  | nullDeref
deriving DecidableEq, Repr

/-- The loop body at video.c lines 164–183 with the allocation outcome as a
parameter: on `none` (allocation failure) the write `new_frame->frame = ...`
dereferences `NULL`; on success the node is filled and appended. -/
def visage_enqueue_step (alloc : Option VisageVideoFrames)
    (tbNum tbDen : Int) (q : List VisageVideoFrames) (framePts : Int) :
    EnqueueOutcome :=
  match alloc with
  | none => EnqueueOutcome.nullDeref
  | some _ => EnqueueOutcome.ok (enqueueDecodedFrame tbNum tbDen q framePts)

/-! ### Context lifecycle: `visage_alloc_video`, `visage_init_video`,
`visage_free_video` -/

/-- `enum AVMediaType`, restricted to the cases the sources distinguish. -/
inductive AVMediaType where
  | video
  | audio
  | other
deriving DecidableEq, Repr

/-- Model of an `AVStream` entry of the format context: its codec parameters
(`codec_type`, `codec_id`) and its `time_base`. -/
structure AVStream where
  codec_type : AVMediaType
  codec_id : Nat
  tbNum : Int
  tbDen : Int
deriving DecidableEq, Repr

/-- Model of an `AVFormatContext`: the array of streams. -/
structure AVFormatContext where
  streams : List AVStream
deriving DecidableEq, Repr

/-- Model of `struct VisageVideo`.  Handles are `Option`s (`NULL` = `none`);
the chain of `VisageVideoFrames` is the queue list; the mutex carries no
state of its own.  `codec` and `codecpar` record the codec id and the index
of the stream whose parameters were bound. -/
structure VisageVideo where
  format_ctx : Option AVFormatContext
  codec : Option Nat
  codecpar : Option Nat
  sws_ctx : Option Unit
  codec_ctx : Option AVCodecContext
  frames : List VisageVideoFrames
  stream_idx : Int
deriving DecidableEq, Repr

/-- `visage_alloc_video` (video.c lines 209–223): `av_mallocz` zeroes the
struct, every handle is `NULL`, the queue is empty, `stream_idx` is 0. -/
def visage_alloc_video : VisageVideo :=
  { format_ctx := none, codec := none, codecpar := none, sws_ctx := none,
    codec_ctx := none, frames := [], stream_idx := 0 }

/-- The stream-selection loop of `visage_init_video` (video.c lines 236–249):
walk the streams in order and `break` at the first one whose `codec_type` is
video, yielding its index and the stream. -/
def findVideoStream : List AVStream → Nat → Option (Nat × AVStream)
  | [], _ => none
  | s :: rest, i =>
      if s.codec_type = AVMediaType.video then some (i, s)
      else findVideoStream rest (i + 1)

/-- Outcomes of the external calls `visage_init_video` makes after stream
selection.  `findDecoder` models `avcodec_find_decoder` (`none` =
unsupported codec); the flags model success of `sws_getContext`,
`avcodec_alloc_context3`, `avcodec_parameters_to_context`, and
`avcodec_open2`; `decoderDelay` is the codec-dependent reorder delay of the
opened decoder. -/
structure InitEnv where
  findDecoder : Nat → Option Nat
  sws_ok : Bool
  alloc_ctx_ok : Bool
  par2ctx_ok : Bool
  open_ok : Bool
  decoderDelay : Nat

/-- `visage_init_video` (video.c lines 226–295): bind the format context,
select the first video stream, look up its decoder; on `video_idx == -1 ||
video_codec == NULL` print and return −1; otherwise bind codec, parameters
and stream index, then build the SWS context and the codec context, each
failure returning −1 with the fields assigned so far left in place; on
success reset the queue and return 0. -/
def visage_init_video (env : InitEnv) (fmt : AVFormatContext)
    (video : VisageVideo) : Int × VisageVideo :=
  let video := { video with format_ctx := some fmt }
  match findVideoStream fmt.streams 0 with
  | none => (-1, video)
  | some (i, s) =>
      match env.findDecoder s.codec_id with
      | none => (-1, video)
      | some dec =>
          let video := { video with codec := some dec, codecpar := some i,
                                    stream_idx := (i : Int) }
          if ¬ env.sws_ok then (-1, video)
          else
            let video := { video with sws_ctx := some () }
            if ¬ env.alloc_ctx_ok then (-1, video)
            else
              let freshCtx : AVCodecContext :=
                { delay := env.decoderDelay, buffered := [], flushed := false }
              let video := { video with codec_ctx := some freshCtx }
              if ¬ env.par2ctx_ok then (-1, video)
              else if ¬ env.open_ok then (-1, video)
              else (0, { video with frames := [] })

/-- Record of what a `visage_free_video` call released:
`avcodec_free_context` and `sws_freeContext` are no-ops on `NULL`,
`visage_free_all_frames` walks the chain freeing each node, and `av_free`
releases the struct itself. -/
structure FreeTrace where
  codecCtxFreed : Bool
  swsFreed : Bool
  nodesFreed : Nat
  ctxFreed : Bool
deriving DecidableEq, Repr

/-- The empty trace: nothing was released. -/
def FreeTrace.nothing : FreeTrace :=
  { codecCtxFreed := false, swsFreed := false, nodesFreed := 0,
    ctxFreed := false }

/-- `visage_free_video` (video.c lines 197–206), acting on the caller's
pointer `*video`: if it is `NULL`, return at once releasing nothing;
otherwise release the codec context, the SWS context, all queue nodes, the
mutex, the struct, and set `*video = NULL`. -/
def visage_free_video : Option VisageVideo → Option VisageVideo × FreeTrace
  | none => (none, FreeTrace.nothing)
  | some v =>
      (none,
       { codecCtxFreed := v.codec_ctx.isSome, swsFreed := v.sws_ctx.isSome,
         nodesFreed := v.frames.length, ctxFreed := true })

/-! ### Interleaved producer/consumer traces over the queue

The queue claims quantify over arbitrary interleavings of the producer's
tail-append (video.c lines 174–183) and the consumer's `visage_pop_video`.
The mutex serialises the two, so an interleaving is a sequence of atomic
operations on the chain. -/

/-- One serialised operation on the frame queue. -/
inductive QOp where
  | enq (n : VisageVideoFrames)
  | deq
deriving DecidableEq, Repr

/-- Run a sequence of operations on a queue; the second component collects,
in order, the frames the successful pops returned. -/
def runOps : List QOp → List VisageVideoFrames →
    List VisageVideoFrames × List AVFrame
  | [], q => (q, [])
  | QOp.enq n :: rest, q => runOps rest (visage_append_frames q n)
  | QOp.deq :: rest, q =>
      match visage_pop_video q with
      | (none, q') => runOps rest q'
      | (some fr, q') =>
          let p := runOps rest q'
          (p.1, fr :: p.2)

/-- The nodes a trace enqueues, in order. -/
def enqNodes : List QOp → List VisageVideoFrames
  | [] => []
  | QOp.enq n :: rest => n :: enqNodes rest
  | QOp.deq :: rest => enqNodes rest

/-- What `visage_pop_video` hands out for a node: the clone of its frame. -/
def cloneOfNode (n : VisageVideoFrames) : AVFrame :=
  av_frame_clone n.frame

/-! ## General lemmas about the operations -/

/-- The tail-append walk produces exactly the chain with the node linked at
the end. -/
theorem visage_append_frames_eq_append (q : List VisageVideoFrames)
    (n : VisageVideoFrames) : visage_append_frames q n = q ++ [n] := by
  induction q with
  | nil => rfl
  | cons c cs ih => simp [visage_append_frames, ih]

/-- Conservation along any interleaved trace: the frames popped so far,
followed by the frames still queued, are exactly the frames enqueued so far
behind the initial contents — nothing is lost, duplicated, or reordered. -/
theorem runOps_spec (ops : List QOp) :
    ∀ q : List VisageVideoFrames,
      (runOps ops q).2 ++ (runOps ops q).1.map cloneOfNode =
        q.map cloneOfNode ++ (enqNodes ops).map cloneOfNode := by
  induction ops with
  | nil => intro q; simp [runOps, enqNodes]
  | cons op rest ih =>
      intro q
      cases op with
      | enq n =>
          simp only [runOps, enqNodes, List.map_cons]
          rw [ih (visage_append_frames q n), visage_append_frames_eq_append]
          simp [cloneOfNode]
      | deq =>
          cases q with
          | nil =>
              simp only [runOps, visage_pop_video]
              rw [ih []]
              simp [enqNodes]
          | cons top restq =>
              simp only [runOps, visage_pop_video, enqNodes]
              rw [List.cons_append, ih restq]
              simp [cloneOfNode]

/-! ## Claims -/

/-- Claim C1. Along any interleaving of the decode loop's tail-appends and
`visage_pop_video` calls starting from the empty queue, with non-decreasing
enqueue timestamps, the pops return the frames in exactly enqueue order: the
popped sequence is an initial prefix of the enqueued sequence, and the
timestamps along it are non-decreasing (queue order equals presentation
order). -/
theorem queue_pop_order_fifo (ops : List QOp)
    (hmono : List.Chain' (· ≤ ·)
      ((enqNodes ops).map VisageVideoFrames.pts)) :
    (runOps ops []).2 =
      ((enqNodes ops).map cloneOfNode).take (runOps ops []).2.length ∧
    List.Chain' (· ≤ ·)
      (((enqNodes ops).map VisageVideoFrames.pts).take
        (runOps ops []).2.length) := by
  have hspec := runOps_spec ops []
  simp only [List.map_nil, List.nil_append] at hspec
  constructor
  · conv_rhs => rw [← hspec]
    rw [List.take_left]
  · exact hmono.sublist (List.take_sublist _ _)

/-- Witness for C1 at the trace enq 1, enq 2, pop, pop. -/
theorem queue_pop_order_fifo_witness :
    (runOps [QOp.enq ⟨⟨0, AV_NOPTS_VALUE⟩, 1⟩,
             QOp.enq ⟨⟨0, AV_NOPTS_VALUE⟩, 2⟩, QOp.deq, QOp.deq] []).2 =
      ((enqNodes [QOp.enq ⟨⟨0, AV_NOPTS_VALUE⟩, 1⟩,
                  QOp.enq ⟨⟨0, AV_NOPTS_VALUE⟩, 2⟩, QOp.deq,
                  QOp.deq]).map cloneOfNode).take
        (runOps [QOp.enq ⟨⟨0, AV_NOPTS_VALUE⟩, 1⟩,
                 QOp.enq ⟨⟨0, AV_NOPTS_VALUE⟩, 2⟩, QOp.deq,
                 QOp.deq] []).2.length ∧
    List.Chain' (· ≤ ·)
      (((enqNodes [QOp.enq ⟨⟨0, AV_NOPTS_VALUE⟩, 1⟩,
                   QOp.enq ⟨⟨0, AV_NOPTS_VALUE⟩, 2⟩, QOp.deq,
                   QOp.deq]).map VisageVideoFrames.pts).take
        (runOps [QOp.enq ⟨⟨0, AV_NOPTS_VALUE⟩, 1⟩,
                 QOp.enq ⟨⟨0, AV_NOPTS_VALUE⟩, 2⟩, QOp.deq,
                 QOp.deq] []).2.length) :=
  queue_pop_order_fifo
    [QOp.enq ⟨⟨0, AV_NOPTS_VALUE⟩, 1⟩, QOp.enq ⟨⟨0, AV_NOPTS_VALUE⟩, 2⟩,
     QOp.deq, QOp.deq] (by simp [enqNodes])

/-- Claim C2 (code bug). Pixel contents reachable from an already-enqueued node
are mutated by the next iteration: decoding pixels 3 enqueues a node whose
reachable pixel data is 3, but after the next iteration scales pixels 5 into
the shared `scaled_frame` buffer, the very same enqueued node's reachable
pixel data reads 5 — `av_frame_clone` shares the buffer that
`av_frame_get_buffer` allocated once, so `sws_scale` overwrites queued
frames. -/
theorem enqueued_frame_pixels_mutated :
    ((processOneFrame 1 1000 initialPixState 3 0).queue.map
      (fun n => reachablePixels
        (processOneFrame 1 1000 initialPixState 3 0).heap n.frame)) = [3] ∧
    ((processOneFrame 1 1000
        (processOneFrame 1 1000 initialPixState 3 0) 5 33).queue.take 1 =
      (processOneFrame 1 1000 initialPixState 3 0).queue) ∧
    ((processOneFrame 1 1000 initialPixState 3 0).queue.map
      (fun n => reachablePixels
        (processOneFrame 1 1000
          (processOneFrame 1 1000 initialPixState 3 0) 5 33).heap
        n.frame)) = [5] := by
  simp [processOneFrame, initialPixState, sws_scale, reachablePixels,
        visage_append_frames, av_frame_clone]

/-- Claim C3. `visage_pop_video` on an empty queue returns `NULL` at once and
leaves the queue empty; no error is involved. -/
theorem pop_video_empty_returns_none :
    visage_pop_video [] =
      ((none : Option AVFrame), ([] : List VisageVideoFrames)) := rfl

/-- Claim C4 (counterexample). `visage_pop_video` does not return the node's
millisecond presentation timestamp: two queues whose single nodes differ only
in that timestamp (42 ms versus 7 ms) yield identical pop results, and the
returned frame's own `pts` field is `AV_NOPTS_VALUE`, not the node's
timestamp. -/
theorem pop_video_discards_pts_counterexample :
    (visage_pop_video [⟨⟨0, AV_NOPTS_VALUE⟩, 42⟩]).1 =
      (visage_pop_video [⟨⟨0, AV_NOPTS_VALUE⟩, 7⟩]).1 ∧
    (visage_pop_video [⟨⟨0, AV_NOPTS_VALUE⟩, 42⟩]).1 =
      some ⟨0, AV_NOPTS_VALUE⟩ ∧
    (42 : Int) ≠ 7 := by
  decide

/-- Claim C4 (amended). On a non-empty queue, `visage_pop_video` detaches the
head node and returns a clone of the head frame — a value in the caller's
hands after the node is freed; the node's millisecond timestamp is discarded
with the node. -/
theorem pop_video_nonempty_returns_clone (top : VisageVideoFrames)
    (rest : List VisageVideoFrames) :
    visage_pop_video (top :: rest) =
      (some (av_frame_clone top.frame), rest) := rfl

/-- Claim C7 (code bug). When `visage_alloc_frames` fails inside the decode
loop, the unchecked write `new_frame->frame = av_frame_clone(scaled_frame)`
dereferences `NULL` — the pipeline crashes into undefined behavior instead of
returning the discriminated error the successful-allocation path contrasts
with. -/
theorem alloc_failure_dereferences_null :
    visage_enqueue_step none 1 1000 [] 0 = EnqueueOutcome.nullDeref ∧
    visage_enqueue_step (some ⟨⟨0, 0⟩, 0⟩) 1 1000 [] 0 =
      EnqueueOutcome.ok (enqueueDecodedFrame 1 1000 [] 0) := by
  exact ⟨rfl, rfl⟩

/-- Claim C5. Every node the drain-loop body enqueues carries the timestamp
`frame->pts * av_q2d(time_base) * 1000` truncated to an integer, and driving
the full loop with decoder timestamps 0, 33, 66, 100 at timebase 1/1000
queues presentation timestamps 0, 33, 66, 100 ms. -/
theorem node_pts_formula_and_examples :
    (∀ (tbNum tbDen fpts : Int) (q : List VisageVideoFrames),
      (enqueueDecodedFrame tbNum tbDen q fpts).map VisageVideoFrames.pts =
        q.map VisageVideoFrames.pts ++ [computePts fpts tbNum tbDen]) ∧
    ((visage_process_video 1 1000 0
        [⟨0, [0]⟩, ⟨0, [33]⟩, ⟨0, [66]⟩, ⟨0, [100]⟩]
        ⟨⟨0, [], false⟩, []⟩).frames.map VisageVideoFrames.pts =
      [0, 33, 66, 100]) := by
  constructor
  · intro tbNum tbDen fpts q
    simp [enqueueDecodedFrame, visage_append_frames_eq_append]
  · simp [visage_process_video, drainFrames, drainLoop,
      avcodec_send_packet, avcodec_receive_frame, enqueueDecodedFrame,
      visage_append_frames_eq_append]
    norm_num [computePts, av_q2d, cTrunc]

/-- No packet of `visage_process_video` ever sets the decoder's flush flag:
the loop only calls `avcodec_send_packet` with real packets. -/
theorem visage_process_video_flushed (tbNum tbDen si : Int)
    (pkts : List AVPacket) :
    ∀ st : ProcState,
      (visage_process_video tbNum tbDen si pkts st).codec_ctx.flushed =
        st.codec_ctx.flushed := by
  induction pkts with
  | nil => intro st; rfl
  | cons p rest ih =>
      intro st
      by_cases hp : p.stream_index = si
      · simp only [visage_process_video]
        rw [if_neg (fun h => h hp), ih]
        simp [drainFrames, drainLoop_flushed, avcodec_send_packet]
      · simp only [visage_process_video]
        rw [if_pos hp]
        exact ih st

/-- Claim C6. When the packet source is exhausted the loop just returns: no
flush is ever submitted to the decoder (the flush flag is untouched for every
input), and a decoder holding one reordered frame keeps it — after two
packets carrying timestamps 10 and 20 through a delay-1 decoder only 10 is
queued while 20 stays buffered inside the decoder, never enqueued. -/
theorem process_video_no_flush_on_exhaustion :
    (∀ (tbNum tbDen si : Int) (pkts : List AVPacket) (st : ProcState),
      (visage_process_video tbNum tbDen si pkts st).codec_ctx.flushed =
        st.codec_ctx.flushed) ∧
    ((visage_process_video 1 1000 0 [⟨0, [10]⟩, ⟨0, [20]⟩]
        ⟨⟨1, [], false⟩, []⟩).frames.map VisageVideoFrames.pts = [10] ∧
     (visage_process_video 1 1000 0 [⟨0, [10]⟩, ⟨0, [20]⟩]
        ⟨⟨1, [], false⟩, []⟩).codec_ctx.buffered = [20]) := by
  refine ⟨fun tbNum tbDen si pkts st =>
    visage_process_video_flushed tbNum tbDen si pkts st, ?_, ?_⟩
  · simp [visage_process_video, drainFrames, drainLoop,
      avcodec_send_packet, avcodec_receive_frame, enqueueDecodedFrame,
      visage_append_frames_eq_append]
    norm_num [computePts, av_q2d, cTrunc]
  · simp [visage_process_video, drainFrames, drainLoop,
      avcodec_send_packet, avcodec_receive_frame, enqueueDecodedFrame,
      visage_append_frames_eq_append]

/-- Claim C9. A packet whose stream index differs from the selected stream is
discarded: the loop state after it equals the state with the packet never
read — nothing was sent to the decoder and the queue is untouched. -/
theorem process_video_skips_foreign_packets (tbNum tbDen si : Int)
    (p : AVPacket) (rest : List AVPacket) (st : ProcState)
    (h : p.stream_index ≠ si) :
    visage_process_video tbNum tbDen si (p :: rest) st =
      visage_process_video tbNum tbDen si rest st := by
  simp only [visage_process_video]
  rw [if_pos h]

/-- Witness for C9: an audio packet (stream 1) before a video-selecting loop
(stream 0) leaves the run unchanged. -/
theorem process_video_skips_foreign_packets_witness :
    visage_process_video 1 1000 0 [⟨1, [5]⟩] ⟨⟨0, [], false⟩, []⟩ =
      visage_process_video 1 1000 0 [] ⟨⟨0, [], false⟩, []⟩ :=
  process_video_skips_foreign_packets 1 1000 0 ⟨1, [5]⟩ []
    ⟨⟨0, [], false⟩, []⟩ (by decide)

/-- Claim C10. `visage_free_video` nulls the caller's pointer, and a second
call on the now-`NULL` pointer returns immediately releasing nothing: the
function is idempotent at its public interface. -/
theorem free_video_idempotent :
    ∀ p : Option VisageVideo,
      (visage_free_video p).1 = none ∧
      visage_free_video (visage_free_video p).1 =
        (none, FreeTrace.nothing) := by
  intro p
  cases p <;> exact ⟨rfl, rfl⟩

/-- The selection loop takes the first video stream: scanning a stream array
whose prefix holds no video stream and then a video stream `s` selects `s` at
the prefix's index. -/
theorem findVideoStream_first (pre : List AVStream) (s : AVStream)
    (post : List AVStream) :
    ∀ k : Nat, (∀ t ∈ pre, t.codec_type ≠ AVMediaType.video) →
      s.codec_type = AVMediaType.video →
      findVideoStream (pre ++ s :: post) k = some (k + pre.length, s) := by
  induction pre with
  | nil =>
      intro k _ hs
      simp [findVideoStream, hs]
  | cons a as ih =>
      intro k hpre hs
      have ha : a.codec_type ≠ AVMediaType.video :=
        hpre a (List.mem_cons_self a as)
      have has : ∀ t ∈ as, t.codec_type ≠ AVMediaType.video :=
        fun t ht => hpre t (List.mem_cons_of_mem a ht)
      show findVideoStream (a :: (as ++ s :: post)) k = _
      rw [findVideoStream, if_neg ha, ih (k + 1) has hs]
      simp only [List.length_cons, Option.some.injEq, Prod.mk.injEq]
      exact ⟨by omega, trivial⟩

/-- Claim C8. `visage_init_video` selects the first video stream of the format
context; when no video stream exists, or the first video stream's codec has
no decoder, it returns −1, and the resulting context still goes through
`visage_free_video` cleanly: the pointer is nulled and nothing but the struct
itself is released (no codec context, no SWS context, no queue node was ever
allocated). -/
theorem init_video_selection_and_failure (env : InitEnv)
    (fmt : AVFormatContext) :
    (findVideoStream fmt.streams 0 = none →
      (visage_init_video env fmt visage_alloc_video).1 = -1 ∧
      visage_free_video
          (some (visage_init_video env fmt visage_alloc_video).2) =
        (none, { codecCtxFreed := false, swsFreed := false, nodesFreed := 0,
                 ctxFreed := true })) ∧
    (∀ (i : Nat) (s : AVStream),
      findVideoStream fmt.streams 0 = some (i, s) →
      env.findDecoder s.codec_id = none →
      (visage_init_video env fmt visage_alloc_video).1 = -1 ∧
      visage_free_video
          (some (visage_init_video env fmt visage_alloc_video).2) =
        (none, { codecCtxFreed := false, swsFreed := false, nodesFreed := 0,
                 ctxFreed := true })) ∧
    (∀ (pre : List AVStream) (s : AVStream) (post : List AVStream),
      fmt.streams = pre ++ s :: post →
      (∀ t ∈ pre, t.codec_type ≠ AVMediaType.video) →
      s.codec_type = AVMediaType.video →
      findVideoStream fmt.streams 0 = some (pre.length, s) ∧
      (∀ dec : Nat, env.findDecoder s.codec_id = some dec →
        env.sws_ok = true → env.alloc_ctx_ok = true →
        env.par2ctx_ok = true → env.open_ok = true →
        (visage_init_video env fmt visage_alloc_video).1 = 0 ∧
        (visage_init_video env fmt visage_alloc_video).2.stream_idx =
          pre.length)) := by
  refine ⟨?_, ?_, ?_⟩
  · intro hnone
    simp [visage_init_video, hnone, visage_alloc_video, visage_free_video]
  · intro i s hfind hdec
    simp [visage_init_video, hfind, hdec, visage_alloc_video,
          visage_free_video]
  · intro pre s post hstreams hpre hs
    have hfind : findVideoStream fmt.streams 0 = some (pre.length, s) := by
      rw [hstreams]
      simpa using findVideoStream_first pre s post 0 hpre hs
    refine ⟨hfind, ?_⟩
    intro dec hdec hsws halloc hpar hopen
    simp [visage_init_video, hfind, hdec, hsws, halloc, hpar, hopen,
          visage_alloc_video]

/-- Witness for C8: a format context with only an audio stream fails with −1
and frees cleanly; one whose video codec has no decoder fails with −1 and
frees cleanly; and with a working decoder the second stream (the first video
one) is selected. -/
theorem init_video_selection_and_failure_witness :
    ((visage_init_video
        { findDecoder := fun _ => none, sws_ok := true, alloc_ctx_ok := true,
          par2ctx_ok := true, open_ok := true, decoderDelay := 0 }
        { streams := [{ codec_type := AVMediaType.audio, codec_id := 5,
                        tbNum := 1, tbDen := 1000 }] }
        visage_alloc_video).1 = -1 ∧
      visage_free_video
          (some (visage_init_video
            { findDecoder := fun _ => none, sws_ok := true,
              alloc_ctx_ok := true, par2ctx_ok := true, open_ok := true,
              decoderDelay := 0 }
            { streams := [{ codec_type := AVMediaType.audio, codec_id := 5,
                            tbNum := 1, tbDen := 1000 }] }
            visage_alloc_video).2) =
        (none, { codecCtxFreed := false, swsFreed := false, nodesFreed := 0,
                 ctxFreed := true })) ∧
    ((visage_init_video
        { findDecoder := fun _ => none, sws_ok := true, alloc_ctx_ok := true,
          par2ctx_ok := true, open_ok := true, decoderDelay := 0 }
        { streams := [{ codec_type := AVMediaType.video, codec_id := 7,
                        tbNum := 1, tbDen := 1000 }] }
        visage_alloc_video).1 = -1 ∧
      visage_free_video
          (some (visage_init_video
            { findDecoder := fun _ => none, sws_ok := true,
              alloc_ctx_ok := true, par2ctx_ok := true, open_ok := true,
              decoderDelay := 0 }
            { streams := [{ codec_type := AVMediaType.video, codec_id := 7,
                            tbNum := 1, tbDen := 1000 }] }
            visage_alloc_video).2) =
        (none, { codecCtxFreed := false, swsFreed := false, nodesFreed := 0,
                 ctxFreed := true })) ∧
    ((visage_init_video
        { findDecoder := fun _ => some 1, sws_ok := true,
          alloc_ctx_ok := true, par2ctx_ok := true, open_ok := true,
          decoderDelay := 0 }
        { streams := [{ codec_type := AVMediaType.audio, codec_id := 5,
                        tbNum := 1, tbDen := 1000 },
                      { codec_type := AVMediaType.video, codec_id := 7,
                        tbNum := 1, tbDen := 1000 }] }
        visage_alloc_video).1 = 0 ∧
      (visage_init_video
        { findDecoder := fun _ => some 1, sws_ok := true,
          alloc_ctx_ok := true, par2ctx_ok := true, open_ok := true,
          decoderDelay := 0 }
        { streams := [{ codec_type := AVMediaType.audio, codec_id := 5,
                        tbNum := 1, tbDen := 1000 },
                      { codec_type := AVMediaType.video, codec_id := 7,
                        tbNum := 1, tbDen := 1000 }] }
        visage_alloc_video).2.stream_idx = 1) := by
  refine ⟨?_, ?_, ?_⟩
  · exact (init_video_selection_and_failure
      { findDecoder := fun _ => none, sws_ok := true, alloc_ctx_ok := true,
        par2ctx_ok := true, open_ok := true, decoderDelay := 0 }
      { streams := [{ codec_type := AVMediaType.audio, codec_id := 5,
                      tbNum := 1, tbDen := 1000 }] }).1 (by decide)
  · exact ((init_video_selection_and_failure
      { findDecoder := fun _ => none, sws_ok := true, alloc_ctx_ok := true,
        par2ctx_ok := true, open_ok := true, decoderDelay := 0 }
      { streams := [{ codec_type := AVMediaType.video, codec_id := 7,
                      tbNum := 1, tbDen := 1000 }] }).2.1 0
      { codec_type := AVMediaType.video, codec_id := 7, tbNum := 1,
        tbDen := 1000 } (by decide) rfl)
  · exact (((init_video_selection_and_failure
      { findDecoder := fun _ => some 1, sws_ok := true, alloc_ctx_ok := true,
        par2ctx_ok := true, open_ok := true, decoderDelay := 0 }
      { streams := [{ codec_type := AVMediaType.audio, codec_id := 5,
                      tbNum := 1, tbDen := 1000 },
                    { codec_type := AVMediaType.video, codec_id := 7,
                      tbNum := 1, tbDen := 1000 }] }).2.2
      [{ codec_type := AVMediaType.audio, codec_id := 5, tbNum := 1,
         tbDen := 1000 }]
      { codec_type := AVMediaType.video, codec_id := 7, tbNum := 1,
        tbDen := 1000 } [] rfl (by decide) rfl).2 1 rfl rfl rfl rfl rfl)

end Visage
